import Mathlib

/-!
Verification of the report store, query functions and submission pipeline of
`src/app.js` (a localStorage-backed issue-reporting UI).

Modelling conventions:
* A `Report` is the sole record type.  All fields the source stores are kept as
  strings, except `submittedAt`: the source stores `new Date().toISOString()`
  and compares dates via `new Date(s)` parsing; we model the timestamp by its
  millisecond value (a `Nat`), which the ISO rendering determines and with
  which both equality and the sort comparator agree.
* The localStorage slot under `STORAGE_KEY` is modelled by the three classes of
  backing state the program distinguishes: absent (`getItem` returns null),
  malformed (a string `JSON.parse` rejects), or holding the serialization of a
  report list (the only thing `saveReports` ever writes;
  `JSON.parse ∘ JSON.stringify` round-trips such lists).
* `console.error` inside the catch of `getReports` is the only diagnostic the
  store emits; `logsParseError` records on which slot states that call fires.
* The submit handler of `initUserDashboard` is modelled by `submitReport`,
  with the clock (`Date.now()` / `new Date()`), the `Math.random` suffix and
  the outcome of the asynchronous `readImageAsDataURL` passed as parameters.
-/

namespace UserAuthority

/-- A report record, as built in `initUserDashboard` and persisted by the
store.  `submittedAt` carries the timestamp's millisecond value (see the
modelling conventions above). -/
structure Report where
  id : String
  category : String
  location : String
  description : String
  imageData : String
  status : String
  submittedAt : Nat
deriving Repr, DecidableEq

/-- The backing localStorage slot: absent, unparseable, or holding the
serialized form of a report list (what `saveReports` writes). -/
inductive Slot where
  | absent : Slot
  | malformed : Slot
  | stored : List Report → Slot
deriving Repr, DecidableEq

/-- `getReports` (src/app.js:16-23): parses the slot, defaulting to `'[]'`
when absent, and recovers from a parse error by returning `[]`. -/
def getReports : Slot → List Report
  | Slot.absent => []
  | Slot.malformed => []
  | Slot.stored reports => reports

/-- Whether the `getReports` call fires its `console.error` diagnostic: only
the catch branch logs, i.e. only on a malformed slot (an absent slot takes the
`|| '[]'` default and parses fine). -/
def logsParseError : Slot → Bool
  | Slot.malformed => true
  | _ => false

/-- `saveReports` (src/app.js:29-31): overwrites the slot with the
serialization of `reports`. -/
def saveReports (reports : List Report) (_s : Slot) : Slot :=
  Slot.stored reports

/-- `addReport` (src/app.js:37-41): load, push, save. -/
def addReport (report : Report) (s : Slot) : Slot :=
  saveReports (getReports s ++ [report]) s

/-- The in-place assignment `reports[reportIndex].status = newStatus` of
`updateReportStatus`: replace the status of the element at the given index. -/
def setStatusAt (newStatus : String) : List Report → Nat → List Report
  | [], _ => []
  | r :: rs, 0 => { r with status := newStatus } :: rs
  | r :: rs, i + 1 => r :: setStatusAt newStatus rs i

/-- `updateReportStatus` (src/app.js:48-55): `findIndex` on the id, and only
when found (`!== -1`) assign the status and save; otherwise nothing runs, so
the slot is untouched. -/
def updateReportStatus (reportId newStatus : String) (s : Slot) : Slot :=
  match (getReports s).findIdx? (fun r => r.id == reportId) with
  | some i => saveReports (setStatusAt newStatus (getReports s) i) s
  | none => s

/-- `generateId` (src/app.js:61-63): `` `report_${Date.now()}_${rand}` ``
where `rand` is the `Math.random().toString(36).substring(2, 9)` suffix. -/
def generateId (now : Nat) (rand : String) : String :=
  "report_" ++ toString now ++ "_" ++ rand

/-- `getStatusClass` (src/app.js:80-86): the switch maps `'Resolved'` and
`'In Progress'` to their own classes and `'Pending'` together with the
default case to the red classes. -/
def getStatusClass (status : String) : String :=
  if status == "Resolved" then "bg-green-100 text-green-800"
  else if status == "In Progress" then "bg-yellow-100 text-yellow-800"
  else "bg-red-100 text-red-800"

/-- The status filter `reports.filter(r => r.status === status)` used by
`renderComplaintList` (src/app.js:268) and `initExplorePage`. -/
def filterByStatus (reports : List Report) (status : String) : List Report :=
  reports.filter (fun r => r.status == status)

/-- The order induced by the comparator
`(a, b) => new Date(b.submittedAt) - new Date(a.submittedAt)`:
`a` sorts no later than `b` exactly when the comparator is `≤ 0`, i.e. when
`b.submittedAt ≤ a.submittedAt`. -/
def newerOrSame (a b : Report) : Prop :=
  b.submittedAt ≤ a.submittedAt

instance : DecidableRel newerOrSame :=
  fun _ _ => Nat.decLe _ _

instance : IsTotal Report newerOrSame :=
  ⟨fun a b => Nat.le_total b.submittedAt a.submittedAt⟩

instance : IsTrans Report newerOrSame :=
  ⟨fun _ _ _ hab hbc => Nat.le_trans hbc hab⟩

/-- `.sort((a, b) => new Date(b.submittedAt) - new Date(a.submittedAt))`
(src/app.js:275, src/unnamed/part_000:230): ECMAScript's `Array.prototype.sort`
is a stable sort with respect to the comparator order, modelled by stable
insertion sort in that order. -/
def sortNewestFirst (reports : List Report) : List Report :=
  reports.insertionSort newerOrSame

/-- The four fields the submit handler reads from the form; `photoFile` is
`files[0]`, which may be absent. -/
structure SubmitInput where
  category : String
  location : String
  description : String
  photoFile : Option String
deriving Repr, DecidableEq

/-- Outcome surfaced in `form-message`: the success text, or the message of
the caught error. -/
inductive SubmitOutcome where
  | success : String → SubmitOutcome
  | failure : String → SubmitOutcome
deriving Repr, DecidableEq

/-- Observable result of one run of the submit handler: the message shown,
the slot afterwards, whether the submit button was re-enabled (both the
success and the catch path set `disabled = false`), and whether
`form.reset()` ran (success path only). -/
structure SubmitResult where
  outcome : SubmitOutcome
  slot : Slot
  submitEnabled : Bool
  formCleared : Bool
deriving Repr, DecidableEq

/-- The message of the validation error thrown at src/app.js:123. -/
def requiredFieldsMessage : String :=
  "Please fill out all required fields and add a photo."

/-- The submit handler of `initUserDashboard` (src/app.js:110-162): validate
(`!category || !location || !photoFile`), read the image (outcome passed in as
`readOutcome`), build the new report and `addReport` it; any thrown error is
caught and displayed, leaving the store untouched. -/
def submitReport (input : SubmitInput) (readOutcome : Except String String)
    (now : Nat) (rand : String) (s : Slot) : SubmitResult :=
  if input.category = "" ∨ input.location = "" ∨ input.photoFile = none then
    { outcome := SubmitOutcome.failure requiredFieldsMessage, slot := s,
      submitEnabled := true, formCleared := false }
  else
    match readOutcome with
    | Except.error msg =>
      { outcome := SubmitOutcome.failure msg, slot := s,
        submitEnabled := true, formCleared := false }
    | Except.ok imageData =>
      let newReport : Report :=
        { id := generateId now rand, category := input.category,
          location := input.location, description := input.description,
          imageData := imageData, status := "Pending", submittedAt := now }
      { outcome := SubmitOutcome.success "Report submitted successfully!",
        slot := addReport newReport s, submitEnabled := true, formCleared := true }

/-- The store mutations the UI can trigger.  Each button is rendered per
list element, guarded by that element's own status, and carries that
element's id in `data-id`; the click handler then calls
`updateReportStatus` with that id, which updates the FIRST report whose id
matches — with duplicate ids this may be a different report than the one
whose button was clicked:
* a successful submission on the user dashboard (src/app.js:110-139) appends
  a freshly built `Pending` report;
* "Mark In Progress" (src/app.js:318-322) is rendered on each `Pending`
  report's card and calls `updateReportStatus(id, 'In Progress')`;
* "Mark Resolved" (src/app.js:323-327) is rendered on each `Pending` or
  `In Progress` report's card and calls `updateReportStatus(id, 'Resolved')`;
* "Reopen" (src/app.js:185-187, 229-233) is rendered on each `Resolved`
  report's row and calls `updateReportStatus(id, 'Pending')`. -/
inductive SysStep : Slot → Slot → Prop where
  | submitSuccess (s : Slot) (input : SubmitInput) (imageData : String)
      (now : Nat) (rand : String) (hc : input.category ≠ "")
      (hl : input.location ≠ "") (hp : input.photoFile ≠ none) :
      SysStep s (submitReport input (Except.ok imageData) now rand s).slot
  | markInProgress (s : Slot) (r : Report) (hmem : r ∈ getReports s)
      (hst : r.status = "Pending") :
      SysStep s (updateReportStatus r.id "In Progress" s)
  | markResolved (s : Slot) (r : Report) (hmem : r ∈ getReports s)
      (hst : r.status = "Pending" ∨ r.status = "In Progress") :
      SysStep s (updateReportStatus r.id "Resolved" s)
  | reopen (s : Slot) (r : Report) (hmem : r ∈ getReports s)
      (hst : r.status = "Resolved") :
      SysStep s (updateReportStatus r.id "Pending" s)

/-- The status transitions named by the specification's lifecycle:
Pending→InProgress→Resolved plus the Resolved→Pending reopen. -/
def claimedTransition (p q : String) : Prop :=
  (p = "Pending" ∧ q = "In Progress") ∨ (p = "In Progress" ∧ q = "Resolved") ∨
    (p = "Resolved" ∧ q = "Pending")

/-- The transitions the UI actually permits: the claimed ones plus the direct
Pending→Resolved jump ("Mark Resolved" is offered on `Pending` reports too,
src/app.js:323). -/
def permittedTransition (p q : String) : Prop :=
  claimedTransition p q ∨ (p = "Pending" ∧ q = "Resolved")

/-! Concrete fixtures used by witnesses and counterexamples. -/

/-- A pending report fixture. -/
def wr1 : Report :=
  { id := "a", category := "Pothole", location := "Main St", description := "",
    imageData := "img1", status := "Pending", submittedAt := 5 }

/-- An in-progress report fixture. -/
def wr2 : Report :=
  { id := "b", category := "Streetlight", location := "2nd Ave",
    description := "flickers", imageData := "img2", status := "In Progress",
    submittedAt := 7 }

/-- A slot holding the two fixture reports. -/
def wSlot : Slot := Slot.stored [wr1, wr2]

/-- A stored report whose id happens to be the string `generateId 0 "x"`
produces. -/
def clashReport : Report :=
  { id := "report_0_x", category := "Pothole", location := "Main St",
    description := "", imageData := "img0", status := "Pending",
    submittedAt := 0 }

/-- A slot already containing `clashReport`. -/
def clashSlot : Slot := Slot.stored [clashReport]

/-- A fully filled-in submission input. -/
def validInput : SubmitInput :=
  { category := "Pothole", location := "Main St", description := "",
    photoFile := some "photo.png" }

/-- A submission input with an empty location. -/
def noLocationInput : SubmitInput :=
  { category := "Pothole", location := "", description := "d",
    photoFile := some "photo.png" }

/-- First of two reports sharing a `submittedAt` value. -/
def twin1 : Report :=
  { id := "t1", category := "Garbage", location := "Park", description := "",
    imageData := "img3", status := "Pending", submittedAt := 9 }

/-- Second of two reports sharing a `submittedAt` value. -/
def twin2 : Report :=
  { id := "t2", category := "Garbage", location := "Lake", description := "",
    imageData := "img4", status := "Pending", submittedAt := 9 }

/-- The report a submission at time 0 with random suffix `"x"` builds. -/
def c7report : Report :=
  { id := generateId 0 "x", category := "Pothole", location := "Main St",
    description := "", imageData := "data", status := "Pending",
    submittedAt := 0 }

/-- The store after that submission against an absent slot. -/
def c7slot1 : Slot :=
  (submitReport validInput (Except.ok "data") 0 "x" Slot.absent).slot

/-- The store after the authority marks that report resolved. -/
def c7slot2 : Slot :=
  updateReportStatus c7report.id "Resolved" c7slot1

/-- The store after a second submission with the same clock value and random
suffix: two reports now share the id `"report_0_x"`, the first `Resolved`,
the second `Pending`. -/
def dupSlot : Slot :=
  (submitReport validInput (Except.ok "data") 0 "x" c7slot2).slot

end UserAuthority

namespace UserAuthority

/-! Helper lemmas about the indexed status assignment. -/

theorem length_setStatusAt (S : String) :
    ∀ (l : List Report) (i : Nat), (setStatusAt S l i).length = l.length
  | [], _ => rfl
  | _ :: rs, 0 => rfl
  | _ :: rs, i + 1 => by
    simp [setStatusAt, length_setStatusAt S rs i]

theorem getElem?_setStatusAt_ne (S : String) :
    ∀ (l : List Report) (i j : Nat), j ≠ i → (setStatusAt S l i)[j]? = l[j]?
  | [], _, _, _ => rfl
  | r :: rs, 0, j, hj => by
    cases j with
    | zero => exact absurd rfl hj
    | succ k => simp [setStatusAt]
  | r :: rs, i + 1, 0, _ => by simp [setStatusAt]
  | r :: rs, i + 1, j + 1, hj => by
    have hk : j ≠ i := fun h => hj (by simp [h])
    simp [setStatusAt, getElem?_setStatusAt_ne S rs i j hk]

theorem getElem?_setStatusAt_self (S : String) :
    ∀ (l : List Report) (i : Nat) (r : Report), l[i]? = some r →
      (setStatusAt S l i)[i]? = some { r with status := S }
  | [], i, r, h => by simp at h
  | x :: rs, 0, r, h => by
    simp at h
    simp [setStatusAt, h]
  | x :: rs, i + 1, r, h => by
    simp at h
    simp [setStatusAt, getElem?_setStatusAt_self S rs i r h]

/-- When `findIndex` hits index `i`, `updateReportStatus` persists the
collection with the status assignment at `i`. -/
theorem getReports_updateReportStatus_found (s : Slot) (reportId S : String)
    (i : Nat)
    (hfind : (getReports s).findIdx? (fun x => x.id == reportId) = some i) :
    getReports (updateReportStatus reportId S s) =
      setStatusAt S (getReports s) i := by
  rw [updateReportStatus, hfind]
  rfl

/-- When validation passes and the image read succeeds, the submit handler
produces the success record appending the freshly built report. -/
theorem submitReport_success_eq (input : SubmitInput) (imageData : String)
    (now : Nat) (rand : String) (s : Slot)
    (h : ¬(input.category = "" ∨ input.location = "" ∨
      input.photoFile = none)) :
    submitReport input (Except.ok imageData) now rand s =
      { outcome := SubmitOutcome.success "Report submitted successfully!",
        slot := addReport
          { id := generateId now rand, category := input.category,
            location := input.location, description := input.description,
            imageData := imageData, status := "Pending",
            submittedAt := now } s,
        submitEnabled := true, formCleared := true } := by
  unfold submitReport
  rw [if_neg h]

/-- C1: for every report sequence `R` and prior slot state, saving `R` with
`saveReports` and then reading with `getReports` returns exactly `R`, in
content and order. -/
theorem saveReports_getReports_roundtrip (R : List Report) (s : Slot) :
    getReports (saveReports R s) = R := rfl

/-- C2 counterexample: on an absent slot, `getReports` returns the empty
sequence but does not log a diagnostic (the `|| '[]'` default parses cleanly
and the `console.error` in the catch never fires), contradicting the claim
that the absent case logs a diagnostic. -/
theorem getReports_absent_logs_no_diagnostic :
    getReports Slot.absent = [] ∧ logsParseError Slot.absent = false :=
  ⟨rfl, rfl⟩

/-- C2 (amended): `getReports` is a total function (it never raises): an
absent or malformed slot yields the empty sequence, the parse-error
diagnostic is logged exactly when the slot is malformed (the absent case is
silent), and a stored collection is returned as persisted. -/
theorem getReports_fails_soft :
    getReports Slot.absent = [] ∧ getReports Slot.malformed = [] ∧
    (∀ s : Slot, logsParseError s = true ↔ s = Slot.malformed) ∧
    (∀ R : List Report, getReports (Slot.stored R) = R) := by
  refine ⟨rfl, rfl, fun s => ?_, fun R => rfl⟩
  cases s <;> simp [logsParseError]

/-- C3: if no report has the requested id, `updateReportStatus` leaves the
slot entirely unchanged (silent no-op, no save); if the id is found at index
`i`, the persisted result has the same length, the report at `i` with only
its status replaced, and every other position untouched (in particular
`submittedAt` and all other fields are unchanged, and order is preserved). -/
theorem updateReportStatus_spec (s : Slot) (reportId S : String) :
    ((∀ r ∈ getReports s, r.id ≠ reportId) →
      updateReportStatus reportId S s = s) ∧
    (∀ i r, (getReports s).findIdx? (fun x => x.id == reportId) = some i →
      (getReports s)[i]? = some r →
      (getReports (updateReportStatus reportId S s)).length =
        (getReports s).length ∧
      (getReports (updateReportStatus reportId S s))[i]? =
        some { r with status := S } ∧
      ∀ j, j ≠ i →
        (getReports (updateReportStatus reportId S s))[j]? =
          (getReports s)[j]?) := by
  constructor
  · intro h
    have hnone : (getReports s).findIdx? (fun x => x.id == reportId) = none :=
      List.findIdx?_eq_none_iff.mpr fun x hx => by
        simpa using h x hx
    simp [updateReportStatus, hnone]
  · intro i r hfind hget
    have hres := getReports_updateReportStatus_found s reportId S i hfind
    refine ⟨?_, ?_, ?_⟩
    · rw [hres]; exact length_setStatusAt S _ i
    · rw [hres]; exact getElem?_setStatusAt_self S _ i r hget
    · intro j hj; rw [hres]; exact getElem?_setStatusAt_ne S _ i j hj

/-- C3 witness: on the two-report fixture slot, updating a missing id is a
no-op and updating report `"b"` to `Resolved` changes exactly its status. -/
theorem updateReportStatus_spec_witness :
    updateReportStatus "zzz" "Resolved" wSlot = wSlot ∧
    (getReports (updateReportStatus "b" "Resolved" wSlot))[1]? =
      some { wr2 with status := "Resolved" } := by
  constructor
  · exact (updateReportStatus_spec wSlot "zzz" "Resolved").1 (by decide)
  · exact ((updateReportStatus_spec wSlot "b" "Resolved").2 1 wr2
      (by decide) (by decide)).2.1

/-- C4: `addReport r` is literally `saveReports (getReports s ++ [r])`; the
resulting collection is the prior one, unchanged and in order, with `r`
appended.  The theorem holds for every `r` whatsoever — no validation is
performed on the appended report. -/
theorem addReport_is_append (r : Report) (s : Slot) :
    addReport r s = saveReports (getReports s ++ [r]) s ∧
    getReports (addReport r s) = getReports s ++ [r] :=
  ⟨rfl, rfl⟩

/-- C10: `getStatusClass` is total on status strings, maps `"Resolved"` and
`"In Progress"` to their own distinct class strings, and maps `"Pending"`
together with every unrecognized input to the same default (the red/alert
classes). -/
theorem getStatusClass_spec :
    getStatusClass "Resolved" = "bg-green-100 text-green-800" ∧
    getStatusClass "In Progress" = "bg-yellow-100 text-yellow-800" ∧
    getStatusClass "Pending" = "bg-red-100 text-red-800" ∧
    getStatusClass "Resolved" ≠ getStatusClass "In Progress" ∧
    getStatusClass "Resolved" ≠ getStatusClass "Pending" ∧
    getStatusClass "In Progress" ≠ getStatusClass "Pending" ∧
    ∀ status : String, status ≠ "Resolved" → status ≠ "In Progress" →
      getStatusClass status = getStatusClass "Pending" := by
  refine ⟨rfl, rfl, rfl, by decide, by decide, by decide, ?_⟩
  intro status h1 h2
  simp only [getStatusClass, beq_iff_eq, if_neg h1, if_neg h2]
  rfl

/-- C10 witness: an unrecognized status string falls through to the same
class as `"Pending"`. -/
theorem getStatusClass_spec_witness :
    getStatusClass "Totally Unknown" = getStatusClass "Pending" :=
  getStatusClass_spec.2.2.2.2.2.2 "Totally Unknown" (by decide) (by decide)

/-- C6: if the submitted category, location or photo file is empty/absent,
the submit handler fails with exactly the message
"Please fill out all required fields and add a photo.", leaves the slot
untouched, and re-enables the submit button (the attempt is retryable). -/
theorem submit_validation_failure (input : SubmitInput)
    (readOutcome : Except String String) (now : Nat) (rand : String)
    (s : Slot)
    (h : input.category = "" ∨ input.location = "" ∨ input.photoFile = none) :
    (submitReport input readOutcome now rand s).outcome =
      SubmitOutcome.failure
        "Please fill out all required fields and add a photo." ∧
    (submitReport input readOutcome now rand s).slot = s ∧
    (submitReport input readOutcome now rand s).submitEnabled = true := by
  have heq : submitReport input readOutcome now rand s =
      { outcome := SubmitOutcome.failure requiredFieldsMessage, slot := s,
        submitEnabled := true, formCleared := false } := by
    unfold submitReport
    rw [if_pos h]
  rw [heq]
  exact ⟨rfl, rfl, rfl⟩

/-- C6 witness: submitting with an empty location against an empty store
fails with the required-fields message and leaves the store empty. -/
theorem submit_validation_failure_witness :
    (submitReport noLocationInput (Except.ok "img") 3 "r" Slot.absent).outcome =
      SubmitOutcome.failure
        "Please fill out all required fields and add a photo." ∧
    (submitReport noLocationInput (Except.ok "img") 3 "r" Slot.absent).slot =
      Slot.absent ∧
    (submitReport noLocationInput (Except.ok "img") 3 "r"
        Slot.absent).submitEnabled = true :=
  submit_validation_failure noLocationInput (Except.ok "img") 3 "r"
    Slot.absent (by decide)

/-- C5 counterexample: a successful submission performed when
`Date.now() = 0` and the random suffix is `"x"`, against a store already
containing a report with id `"report_0_x"`, appends a report whose freshly
generated id equals that existing id — the generated id is not distinct from
every stored id (the code never checks). -/
theorem submit_id_collision :
    (submitReport validInput (Except.ok "data") 0 "x" clashSlot).outcome =
      SubmitOutcome.success "Report submitted successfully!" ∧
    getReports (submitReport validInput (Except.ok "data") 0 "x"
        clashSlot).slot =
      getReports clashSlot ++
        [{ id := generateId 0 "x", category := "Pothole",
           location := "Main St", description := "", imageData := "data",
           status := "Pending", submittedAt := 0 }] ∧
    clashReport ∈ getReports clashSlot ∧
    clashReport.id = generateId 0 "x" := by
  decide

/-- C5 (amended): every successful submission appends exactly one new report
whose status is `"Pending"`, whose `submittedAt` is the current time, and
whose id is `generateId now rand` (the string `report_<now>_<rand>`); that id
is distinct from the id of every report already in the store whenever no
stored report already bears exactly that string — the code performs no
uniqueness check, so distinctness is only probabilistic. -/
theorem submit_success_spec (input : SubmitInput) (imageData : String)
    (now : Nat) (rand : String) (s : Slot) (hc : input.category ≠ "")
    (hl : input.location ≠ "") (hp : input.photoFile ≠ none) :
    (submitReport input (Except.ok imageData) now rand s).outcome =
      SubmitOutcome.success "Report submitted successfully!" ∧
    getReports (submitReport input (Except.ok imageData) now rand s).slot =
      getReports s ++
        [{ id := generateId now rand, category := input.category,
           location := input.location, description := input.description,
           imageData := imageData, status := "Pending",
           submittedAt := now }] ∧
    ((∀ r ∈ getReports s, r.id ≠ generateId now rand) →
      ∃ nr : Report,
        getReports (submitReport input (Except.ok imageData) now rand
            s).slot = getReports s ++ [nr] ∧
        nr.status = "Pending" ∧ nr.submittedAt = now ∧
        ∀ r ∈ getReports s, r.id ≠ nr.id) := by
  have hcond : ¬(input.category = "" ∨ input.location = "" ∨
      input.photoFile = none) := by
    rintro (h | h | h)
    · exact hc h
    · exact hl h
    · exact hp h
  rw [submitReport_success_eq input imageData now rand s hcond]
  refine ⟨rfl, rfl, fun hfresh => ?_⟩
  exact ⟨_, rfl, rfl, rfl, hfresh⟩

/-- C5 witness: a valid submission at time 3 with random suffix `"r"` against
the two-report fixture store appends exactly the expected fresh report, whose
id differs from both stored ids. -/
theorem submit_success_spec_witness :
    getReports (submitReport validInput (Except.ok "data") 3 "r" wSlot).slot =
      getReports wSlot ++
        [{ id := generateId 3 "r", category := "Pothole",
           location := "Main St", description := "", imageData := "data",
           status := "Pending", submittedAt := 3 }] ∧
    ∃ nr : Report,
      getReports (submitReport validInput (Except.ok "data") 3 "r"
          wSlot).slot = getReports wSlot ++ [nr] ∧
      nr.status = "Pending" ∧ nr.submittedAt = 3 ∧
      ∀ r ∈ getReports wSlot, r.id ≠ nr.id :=
  ⟨(submit_success_spec validInput "data" 3 "r" wSlot (by decide) (by decide)
      (by decide)).2.1,
   (submit_success_spec validInput "data" 3 "r" wSlot (by decide) (by decide)
      (by decide)).2.2 (by decide)⟩

/-- C8: `filterByStatus R S` returns exactly the elements of `R` whose
status equals `S`: it is a sublist of `R` (relative order preserved, nothing
foreign included), every element of it satisfies the predicate, every
element of `R` satisfying the predicate is kept, and its length counts
exactly the satisfying elements (so no copy is dropped). -/
theorem filterByStatus_spec (R : List Report) (S : String) :
    (filterByStatus R S).Sublist R ∧
    (∀ r ∈ filterByStatus R S, r.status = S) ∧
    (∀ r ∈ R, r.status = S → r ∈ filterByStatus R S) ∧
    (filterByStatus R S).length = R.countP (fun r => r.status == S) := by
  refine ⟨List.filter_sublist R, ?_, ?_, ?_⟩
  · intro r hr
    simpa using (List.mem_filter.mp hr).2
  · intro r hr h
    exact List.mem_filter.mpr ⟨hr, by simpa using h⟩
  · simp [filterByStatus, List.countP_eq_length_filter]

/-- C8 witness: on the fixture list, the pending fixture report is kept by
the `"Pending"` filter. -/
theorem filterByStatus_spec_witness :
    wr1 ∈ filterByStatus [wr1, wr2] "Pending" :=
  (filterByStatus_spec [wr1, wr2] "Pending").2.2.1 wr1 (by decide) (by decide)

/-- Inserting a report into a list commutes with filtering on a timestamp
value: the inserted report lands in front of the filtered remainder exactly
when its own timestamp matches (it is placed before the first element it
compares no later than, and everything it skips has a strictly larger
timestamp). -/
theorem filter_submittedAt_orderedInsert (t : Nat) (a : Report) :
    ∀ l : List Report,
      (List.orderedInsert newerOrSame a l).filter
          (fun r => r.submittedAt == t) =
        if a.submittedAt = t
        then a :: l.filter (fun r => r.submittedAt == t)
        else l.filter (fun r => r.submittedAt == t)
  | [] => by
    by_cases h : a.submittedAt = t <;>
      simp [List.orderedInsert, List.filter_cons, beq_iff_eq, h]
  | b :: l => by
    by_cases hab : newerOrSame a b
    · simp only [List.orderedInsert, if_pos hab]
      by_cases h : a.submittedAt = t <;>
        simp [List.filter_cons, beq_iff_eq, h]
    · simp only [List.orderedInsert, if_neg hab]
      by_cases h : a.submittedAt = t
      · have hbt : ¬(b.submittedAt = t) := by
          intro hb
          exact hab (by simp [newerOrSame, hb, h])
        simp [List.filter_cons, beq_iff_eq, h, hbt,
          filter_submittedAt_orderedInsert t a l]
      · simp [List.filter_cons, beq_iff_eq, h,
          filter_submittedAt_orderedInsert t a l]

/-- `sortNewestFirst` preserves, for each timestamp value, the subsequence of
reports carrying it — the standard statement of sort stability. -/
theorem sortNewestFirst_filter (R : List Report) (t : Nat) :
    (sortNewestFirst R).filter (fun r => r.submittedAt == t) =
      R.filter (fun r => r.submittedAt == t) := by
  induction R with
  | nil => rfl
  | cons x xs ih =>
    have ih' : (List.insertionSort newerOrSame xs).filter
        (fun r => r.submittedAt == t) =
        xs.filter (fun r => r.submittedAt == t) := ih
    show (List.orderedInsert newerOrSame x
        (List.insertionSort newerOrSame xs)).filter
        (fun r => r.submittedAt == t) = _
    rw [filter_submittedAt_orderedInsert t x
      (List.insertionSort newerOrSame xs)]
    by_cases h : x.submittedAt = t <;>
      simp [List.filter_cons, beq_iff_eq, h, ih']

/-- C9: `sortNewestFirst` permutes its input into an order sorted descending
by `submittedAt`, and it is stable: for each timestamp value the subsequence
carrying it is unchanged, and any two reports with identical `submittedAt`
appearing in order in the input still appear in that order in the output. -/
theorem sortNewestFirst_spec (R : List Report) :
    (sortNewestFirst R).Perm R ∧
    (sortNewestFirst R).Sorted newerOrSame ∧
    (∀ t : Nat, (sortNewestFirst R).filter (fun r => r.submittedAt == t) =
      R.filter (fun r => r.submittedAt == t)) ∧
    ∀ a b : Report, a.submittedAt = b.submittedAt →
      List.Sublist [a, b] R → List.Sublist [a, b] (sortNewestFirst R) := by
  refine ⟨List.perm_insertionSort newerOrSame R,
    List.sorted_insertionSort newerOrSame R,
    fun t => sortNewestFirst_filter R t,
    fun a b hab h => List.pair_sublist_insertionSort ?_ h⟩
  show b.submittedAt ≤ a.submittedAt
  exact Nat.le_of_eq hab.symm

/-- C9 witness: the two fixture reports sharing `submittedAt = 9` keep their
relative order when a third report is sorted among them. -/
theorem sortNewestFirst_spec_witness :
    List.Sublist [twin1, twin2] (sortNewestFirst [wr2, twin1, twin2]) :=
  (sortNewestFirst_spec [wr2, twin1, twin2]).2.2.2 twin1 twin2 rfl
    (List.Sublist.cons wr2 (List.Sublist.refl [twin1, twin2]))

/-- C7 counterexample: from the absent slot, a successful submission (a
system step) leaves one `Pending` report, and the authority dashboard's
"Mark Resolved" — rendered for `Pending` reports too — is a further system
step that sets that report's status directly to `"Resolved"`: a reachable
status mutation `Pending→Resolved` that is not among the claimed transitions
Pending→InProgress→Resolved, Resolved→Pending. -/
theorem sysStep_pending_to_resolved :
    SysStep Slot.absent c7slot1 ∧
    SysStep c7slot1 c7slot2 ∧
    getReports c7slot1 = [c7report] ∧
    c7report.status = "Pending" ∧
    getReports c7slot2 = [{ c7report with status := "Resolved" }] ∧
    ¬claimedTransition "Pending" "Resolved" := by
  refine ⟨?_, ?_, by decide, rfl, by decide, ?_⟩
  · exact SysStep.submitSuccess Slot.absent validInput "data" 0 "x"
      (by decide) (by decide) (by decide)
  · exact SysStep.markResolved c7slot1 c7report (by decide) (Or.inl rfl)
  · unfold claimedTransition
    decide

/-- A member's id always has a first match: `findIndex` on `r.id` succeeds,
and the report at the found index shares that id — though with duplicate ids
it need not be `r` itself. -/
theorem findIdx?_id_of_mem (l : List Report) (r : Report) (hmem : r ∈ l) :
    ∃ i r', l.findIdx? (fun x => x.id == r.id) = some i ∧
      l[i]? = some r' ∧ r'.id = r.id := by
  have hfind := List.findIdx?_eq_some_of_exists
    (⟨r, hmem, by simp⟩ : ∃ x, x ∈ l ∧ (fun x => x.id == r.id) x)
  rcases List.findIdx?_eq_some_iff_getElem.mp hfind with ⟨hi, hp, hmin⟩
  exact ⟨_, _, hfind, List.getElem?_eq_getElem hi, by simpa using hp⟩

/-- With pairwise-distinct ids, the first match of a member's id is that
member itself. -/
theorem findIdx?_id_nodup (l : List Report)
    (hnd : (l.map Report.id).Nodup) (r : Report) (hmem : r ∈ l) (i : Nat)
    (hfind : l.findIdx? (fun x => x.id == r.id) = some i) :
    l[i]? = some r := by
  rcases List.findIdx?_eq_some_iff_getElem.mp hfind with ⟨hi, hp, hmin⟩
  rcases List.getElem_of_mem hmem with ⟨j, hj, hrj⟩
  have hpi : l[i].id = r.id := by simpa using hp
  have hij : i = j := by
    have hmi : i < (l.map Report.id).length := by simpa using hi
    have hmj : j < (l.map Report.id).length := by simpa using hj
    have hids : (l.map Report.id).get ⟨i, hmi⟩ = (l.map Report.id).get ⟨j, hmj⟩ := by
      simp [hpi, hrj]
    exact hnd.getElem_inj_iff.mp hids
  subst hij
  rw [List.getElem?_eq_getElem hi, hrj]

/-- The shape of any `updateReportStatus` application whose `findIndex`
hits index `i`: same length, the report at `i` with only its status
replaced, every other position untouched. -/
theorem updateReportStatus_shape (s : Slot) (rid S : String) (i : Nat)
    (r' : Report)
    (hfind : (getReports s).findIdx? (fun x => x.id == rid) = some i)
    (hget : (getReports s)[i]? = some r') :
    (getReports (updateReportStatus rid S s)).length =
      (getReports s).length ∧
    (getReports (updateReportStatus rid S s))[i]? =
      some { r' with status := S } ∧
    ∀ j, j ≠ i → (getReports (updateReportStatus rid S s))[j]? =
      (getReports s)[j]? := by
  have hres := getReports_updateReportStatus_found s rid S i hfind
  refine ⟨?_, ?_, ?_⟩
  · rw [hres]
    exact length_setStatusAt _ _ i
  · rw [hres]
    exact getElem?_setStatusAt_self _ _ i r' hget
  · intro j hj
    rw [hres]
    exact getElem?_setStatusAt_ne _ _ i j hj

/-- With duplicate ids the step relation contains stale first-match updates:
from the reachable store holding a `Resolved` and then a `Pending` copy of
id `"report_0_x"`, the "Mark In Progress" button on the `Pending` card is a
system step, but `updateReportStatus` hits the FIRST copy and mutates it
`Resolved`→`"In Progress"` — outside even the permitted transitions.  This
is why the transition-discipline part of the step theorem below assumes
pairwise-distinct ids. -/
theorem sysStep_duplicate_id_stale_update :
    SysStep c7slot2 dupSlot ∧
    SysStep dupSlot (updateReportStatus c7report.id "In Progress" dupSlot) ∧
    getReports dupSlot =
      [{ c7report with status := "Resolved" }, c7report] ∧
    getReports (updateReportStatus c7report.id "In Progress" dupSlot) =
      [{ c7report with status := "In Progress" }, c7report] ∧
    ¬permittedTransition "Resolved" "In Progress" := by
  refine ⟨?_, ?_, by decide, by decide, ?_⟩
  · exact SysStep.submitSuccess c7slot2 validInput "data" 0 "x"
      (by decide) (by decide) (by decide)
  · exact SysStep.markInProgress dupSlot c7report (by decide) rfl
  · unfold permittedTransition claimedTransition
    decide

/-- C7 (amended): every store-mutating step of the system either appends one
new `Pending` report, leaving all prior reports unchanged and in order, or
changes the status field of exactly one existing report to one of
`"In Progress"`, `"Resolved"` or `"Pending"` — all its other fields, every
other report and the order untouched, nothing ever deleted.  When the
stored ids are pairwise distinct (the data model's uniqueness invariant),
the status change moreover follows one of the transitions
Pending→InProgress, Pending→Resolved (the direct jump the authority
dashboard offers), InProgress→Resolved, or Resolved→Pending; with duplicate
ids the click on a later duplicate's button updates the first match, whose
prior status the button did not witness, so no transition discipline holds
unconditionally. -/
theorem sysStep_spec (s s' : Slot) (h : SysStep s s') :
    ((∃ r : Report, r.status = "Pending" ∧
        getReports s' = getReports s ++ [r]) ∨
      (∃ i : Nat, ∃ r' : Report, ∃ S : String,
        (S = "In Progress" ∨ S = "Resolved" ∨ S = "Pending") ∧
        (getReports s)[i]? = some r' ∧
        (getReports s').length = (getReports s).length ∧
        (getReports s')[i]? = some { r' with status := S } ∧
        ∀ j, j ≠ i → (getReports s')[j]? = (getReports s)[j]?)) ∧
    (((getReports s).map Report.id).Nodup →
      (∃ r : Report, r.status = "Pending" ∧
        getReports s' = getReports s ++ [r]) ∨
      (∃ i : Nat, ∃ r' : Report, ∃ S : String,
        (getReports s)[i]? = some r' ∧ permittedTransition r'.status S ∧
        (getReports s').length = (getReports s).length ∧
        (getReports s')[i]? = some { r' with status := S } ∧
        ∀ j, j ≠ i → (getReports s')[j]? = (getReports s)[j]?)) := by
  cases h with
  | submitSuccess input imageData now rand hc hl hp =>
    have hcond : ¬(input.category = "" ∨ input.location = "" ∨
        input.photoFile = none) := by
      rintro (h | h | h)
      · exact hc h
      · exact hl h
      · exact hp h
    have happ : getReports
        (submitReport input (Except.ok imageData) now rand s).slot =
        getReports s ++ [⟨generateId now rand, input.category,
          input.location, input.description, imageData, "Pending", now⟩] := by
      rw [submitReport_success_eq input imageData now rand s hcond]
      rfl
    exact ⟨Or.inl ⟨_, rfl, happ⟩, fun _ => Or.inl ⟨_, rfl, happ⟩⟩
  | markInProgress r hmem hst =>
    obtain ⟨i, r', hfind, hget, hid⟩ :=
      findIdx?_id_of_mem (getReports s) r hmem
    obtain ⟨hlen, hself, hother⟩ :=
      updateReportStatus_shape s r.id "In Progress" i r' hfind hget
    refine ⟨Or.inr ⟨i, r', "In Progress", Or.inl rfl, hget, hlen, hself,
      hother⟩, fun hnd => ?_⟩
    have hgetr := findIdx?_id_nodup (getReports s) hnd r hmem i hfind
    have hr' : r' = r := Option.some.inj (hget.symm.trans hgetr)
    subst hr'
    exact Or.inr ⟨i, r', "In Progress", hget,
      Or.inl (Or.inl ⟨hst, rfl⟩), hlen, hself, hother⟩
  | markResolved r hmem hst =>
    obtain ⟨i, r', hfind, hget, hid⟩ :=
      findIdx?_id_of_mem (getReports s) r hmem
    obtain ⟨hlen, hself, hother⟩ :=
      updateReportStatus_shape s r.id "Resolved" i r' hfind hget
    refine ⟨Or.inr ⟨i, r', "Resolved", Or.inr (Or.inl rfl), hget, hlen,
      hself, hother⟩, fun hnd => ?_⟩
    have hgetr := findIdx?_id_nodup (getReports s) hnd r hmem i hfind
    have hr' : r' = r := Option.some.inj (hget.symm.trans hgetr)
    subst hr'
    have hperm : permittedTransition r'.status "Resolved" := by
      cases hst with
      | inl hP => exact Or.inr ⟨hP, rfl⟩
      | inr hIP => exact Or.inl (Or.inr (Or.inl ⟨hIP, rfl⟩))
    exact Or.inr ⟨i, r', "Resolved", hget, hperm, hlen, hself, hother⟩
  | reopen r hmem hst =>
    obtain ⟨i, r', hfind, hget, hid⟩ :=
      findIdx?_id_of_mem (getReports s) r hmem
    obtain ⟨hlen, hself, hother⟩ :=
      updateReportStatus_shape s r.id "Pending" i r' hfind hget
    refine ⟨Or.inr ⟨i, r', "Pending", Or.inr (Or.inr rfl), hget, hlen,
      hself, hother⟩, fun hnd => ?_⟩
    have hgetr := findIdx?_id_nodup (getReports s) hnd r hmem i hfind
    have hr' : r' = r := Option.some.inj (hget.symm.trans hgetr)
    subst hr'
    exact Or.inr ⟨i, r', "Pending", hget,
      Or.inl (Or.inr (Or.inr ⟨hst, rfl⟩)), hlen, hself, hother⟩

/-- C7 witness: the "Mark In Progress" step on the fixture slot, whose ids
are pairwise distinct, falls under the update branch of both parts of the
case analysis. -/
theorem sysStep_spec_witness :
    ((∃ r : Report, r.status = "Pending" ∧
        getReports (updateReportStatus wr1.id "In Progress" wSlot) =
          getReports wSlot ++ [r]) ∨
      (∃ i : Nat, ∃ r' : Report, ∃ S : String,
        (S = "In Progress" ∨ S = "Resolved" ∨ S = "Pending") ∧
        (getReports wSlot)[i]? = some r' ∧
        (getReports (updateReportStatus wr1.id "In Progress"
            wSlot)).length = (getReports wSlot).length ∧
        (getReports (updateReportStatus wr1.id "In Progress" wSlot))[i]? =
          some { r' with status := S } ∧
        ∀ j, j ≠ i →
          (getReports (updateReportStatus wr1.id "In Progress"
              wSlot))[j]? = (getReports wSlot)[j]?)) ∧
    ((∃ r : Report, r.status = "Pending" ∧
        getReports (updateReportStatus wr1.id "In Progress" wSlot) =
          getReports wSlot ++ [r]) ∨
      (∃ i : Nat, ∃ r' : Report, ∃ S : String,
        (getReports wSlot)[i]? = some r' ∧
        permittedTransition r'.status S ∧
        (getReports (updateReportStatus wr1.id "In Progress"
            wSlot)).length = (getReports wSlot).length ∧
        (getReports (updateReportStatus wr1.id "In Progress" wSlot))[i]? =
          some { r' with status := S } ∧
        ∀ j, j ≠ i →
          (getReports (updateReportStatus wr1.id "In Progress"
              wSlot))[j]? = (getReports wSlot)[j]?)) :=
  ⟨(sysStep_spec wSlot (updateReportStatus wr1.id "In Progress" wSlot)
      (SysStep.markInProgress wSlot wr1 (by decide) rfl)).1,
   (sysStep_spec wSlot (updateReportStatus wr1.id "In Progress" wSlot)
      (SysStep.markInProgress wSlot wr1 (by decide) rfl)).2 (by decide)⟩

end UserAuthority
